import Mathlib

/-!
Shallow embedding of src/packages/graphql-build/src/SchemaBuilder.js.

JavaScript values are modelled by JSVal, the object heap by a list of
object records addressed by allocation index, and a JS throw by an
Except result paired with the post-throw state (a throw keeps the
mutations already performed). The file is CommonJS, hence sloppy mode:
an assignment to a property of a frozen object is a silent no-op.
-/

/-- JavaScript values, as far as SchemaBuilder.js inspects them:
truthiness and identity. Objects are references into the heap. -/
inductive JSVal where
  | vUndefined
  | vNull
  | vBool (b : Bool)
  | vNum (n : Int)
  | vStr (s : String)
  | vObj (id : Nat)
deriving DecidableEq, Repr

/-- JS truthiness for the values of JSVal (NaN does not arise: numbers
are modelled as Int). -/
def truthy : JSVal → Bool
  | .vUndefined => false
  | .vNull => false
  | .vBool b => b
  | .vNum n => n != 0
  | .vStr s => s != ""
  | .vObj _ => true

/-- A heap object: named fields plus the Object.freeze flag. -/
structure ObjData where
  fields : List (String × JSVal)
  frozen : Bool
deriving DecidableEq, Repr

abbrev Heap := List ObjData

def hGet : Heap → Nat → Option ObjData
  | [], _ => none
  | o :: _, 0 => some o
  | _ :: t, n + 1 => hGet t n

def hSet : Heap → Nat → ObjData → Heap
  | [], _, _ => []
  | _ :: t, 0, o => o :: t
  | x :: t, n + 1, o => x :: hSet t n o

/-- The mutations JS user code (hooks, external collaborators) can
perform on the heap. Writing a field of a frozen object is a silent
no-op (sloppy mode); freezing is permanent; alloc appends a fresh
object at the next index. -/
inductive HeapOp where
  | write (id : Nat) (key : String) (v : JSVal)
  | freeze (id : Nat)
  | alloc (fields : List (String × JSVal))
deriving DecidableEq, Repr

def setField : List (String × JSVal) → String → JSVal → List (String × JSVal)
  | [], k, v => [(k, v)]
  | (k2, v2) :: rest, k, v =>
    if k2 = k then (k, v) :: rest else (k2, v2) :: setField rest k v

def applyOp (h : Heap) : HeapOp → Heap
  | .write i k v =>
    match hGet h i with
    | some o => if o.frozen then h else hSet h i ⟨setField o.fields k v, false⟩
    | none => h
  | .freeze i =>
    match hGet h i with
    | some o => hSet h i ⟨o.fields, true⟩
    | none => h
  | .alloc fs => h ++ [⟨fs, false⟩]

def applyOps : Heap → List HeapOp → Heap
  | h, [] => h
  | h, op :: rest => applyOps (applyOp h op) rest

/-- A registered hook (SchemaBuilder.js lines 74-81): a JS function of
(obj, build, context) with its name and displayName ("" models a JS
falsy/absent name); the heap effects it performs while running are the
HeapOps it returns alongside its replacement value. -/
structure Hook where
  displayName : String
  name : String
  fn : JSVal → JSVal → JSVal → Heap → JSVal × List HeapOp

abbrev Registry := List (String × List Hook)

/-- The pre-declared phase names: the keys of this.hooks in the
constructor (SchemaBuilder.js lines 19-67). -/
def phaseNames : List String :=
  ["build", "init", "GraphQLSchema",
   "GraphQLObjectType", "GraphQLObjectType:interfaces", "GraphQLObjectType:fields",
   "GraphQLInputObjectType", "GraphQLInputObjectType:fields",
   "GraphQLEnumType", "GraphQLEnumType:values",
   "field", "field:args", "inputField"]

def initialHooks : Registry := phaseNames.map (fun n => (n, []))

def lookupOwn : Registry → String → Option (List Hook)
  | [], _ => none
  | (k, hs) :: rest, n => if k = n then some hs else lookupOwn rest n

def keysOf (r : Registry) : List String := r.map Prod.fst

/-- Own property names of Object.prototype. this.hooks is an object
literal, so a property read for one of these names falls back to an
inherited truthy non-array value instead of yielding undefined. -/
def objectProtoProps : List String :=
  ["constructor", "hasOwnProperty", "isPrototypeOf", "propertyIsEnumerable",
   "toLocaleString", "toString", "valueOf", "__defineGetter__",
   "__defineSetter__", "__lookupGetter__", "__lookupSetter__", "__proto__"]

/-- Result of the property read this.hooks[hookName]. -/
inductive HookLookup where
  | hookList (hs : List Hook)
  | inherited
  | missing

/-- Reading this.hooks[name]: an own key yields its hook array, an
Object.prototype property name yields an inherited truthy non-array
value, any other name yields undefined. -/
def lookupHooks (r : Registry) (n : String) : HookLookup :=
  match lookupOwn r n with
  | some hs => .hookList hs
  | none => if n ∈ objectProtoProps then .inherited else .missing

/-- A thrown JS exception: new Error(msg), or a TypeError raised by the
runtime (calling a missing method, iterating a non-iterable). -/
inductive JsError where
  | error (msg : String)
  | typeError (msg : String)
deriving DecidableEq, Repr

/-- JS a || b on strings ("" is falsy). -/
def strOr (a b : String) : String := if a = "" then b else a

/-- hook.displayName || hook.name || "anonymous" (lines 109 and 118-120). -/
def hookLabel (h : Hook) : String := strOr h.displayName (strOr h.name "anonymous")

def hookFalsyMsg (label phase : String) : String :=
  "Hook '" ++ label ++ "' for '" ++ phase ++ "' returned falsy value"

def notRegisteredMsg (phase : String) : String :=
  "Sorry, '" ++ phase ++ "' is not a registered hook"

def notSupportedMsg (phase : String) : String :=
  "Sorry, '" ++ phase ++ "' is not a supported hook"

/-- Lines 105-131 of applyHooks: thread the value through the hooks in
list order, checking each returned value for truthiness; a falsy value
throws the named Error. Debug tracing and the depth counter
(incremented on entry and restored in the finally blocks) are
diagnostics with no effect on the result or the heap and are omitted.
The heap at the moment of the throw is returned with the error. -/
def runHooks (phase : String) : List Hook → JSVal → JSVal → JSVal → Heap →
    Except JsError JSVal × Heap
  | [], _, _, obj, heap => (.ok obj, heap)
  | h :: rest, build, ctx, obj, heap =>
    let r := h.fn obj build ctx heap
    let heap2 := applyOps heap r.2
    if truthy r.1 then runHooks phase rest build ctx r.1 heap2
    else (.error (.error (hookFalsyMsg (hookLabel h) phase)), heap2)

/-- SchemaBuilder.applyHooks (lines 95-139). A missing phase name throws
the "not a registered hook" Error (line 102); a name inherited from
Object.prototype passes the falsy check but then fails the for..of
iteration with a TypeError. -/
def applyHooks (r : Registry) (build : JSVal) (hookName : String)
    (oldObj ctx : JSVal) (heap : Heap) : Except JsError JSVal × Heap :=
  match lookupHooks r hookName with
  | .missing => (.error (.error (notRegisteredMsg hookName)), heap)
  | .inherited => (.error (.typeError "hooks is not iterable"), heap)
  | .hookList hs => runHooks hookName hs build ctx oldObj heap

def updateHooks (r : Registry) (n : String) (hs : List Hook) : Registry :=
  r.map (fun p => if p.1 = n then (p.1, hs) else p)

/-- SchemaBuilder.hook (lines 82-93). An unknown name throws the "not a
supported hook" Error before any mutation; a name inherited from
Object.prototype passes the falsy check but then fails at
this.hooks[hookName].push with a TypeError, also before any registry
mutation. The registry after the call is returned alongside. -/
def hookMethod (r : Registry) (currentPluginName : Option String)
    (hookName : String) (fn : Hook) : Except JsError Unit × Registry :=
  match lookupHooks r hookName with
  | .missing => (.error (.error (notSupportedMsg hookName)), r)
  | .inherited => (.error (.typeError "this.hooks[hookName].push is not a function"), r)
  | .hookList hs =>
    let fn2 :=
      match currentPluginName with
      | some p =>
        if p ≠ "" ∧ fn.displayName = "" then
          { fn with displayName := p ++ "/" ++ hookName ++ "/" ++ strOr fn.name "anonymous" }
        else fn
      | none => fn
    (.ok (), updateHooks r hookName (hs ++ [fn2]))

/-- Modelled from the spec: the external collaborators of the core whose
code is not under src/ — makeNewBuild from ./makeNewBuild (the seed
context provider of spec section 6, supplying the initial value fed
into the build phase), bindAll from ./utils (binds every
function-valued member of the context in place, spec section 4.3 step
2, value-irrelevant here), and build.buildObjectWithHooks(GraphQLSchema, ...)
(the top-level artifact constructor of spec section 6, called once per
build cycle), each as a state transformer over the heap. -/
structure Externals where
  makeNewBuild : Heap → JSVal × Heap
  bindAll : JSVal → Heap → Heap
  construct : JSVal → Heap → JSVal × Heap

/-- Object.freeze on a heap object: set its frozen flag. -/
def freezeObj (h : Heap) (i : Nat) : Heap :=
  match hGet h i with
  | some o => hSet h i ⟨o.fields, true⟩
  | none => h

/-- Object.freeze(v): freezes the referenced object; a primitive is
returned unchanged. -/
def freezeVal (v : JSVal) (h : Heap) : Heap :=
  match v with
  | .vObj i => freezeObj h i
  | _ => h

/-- Allocation of an object literal. -/
def allocObj (h : Heap) (fs : List (String × JSVal)) : JSVal × Heap :=
  (.vObj h.length, h ++ [⟨fs, false⟩])

/-- Lines 150-156 of createBuild: dispatch the build phase via
applyHooks(null, "build", makeNewBuild(this)) — so the call passes null
as the build argument, makeNewBuild(this) as the threaded value and
undefined as the context argument — then bindAll and Object.freeze the
result. -/
def createBuildPhase (ext : Externals) (r : Registry) (heap : Heap) :
    Except JsError JSVal × Heap :=
  let seedP := ext.makeNewBuild heap
  match applyHooks r .vNull "build" seedP.1 .vUndefined seedP.2 with
  | (.error e, h2) => (.error e, h2)
  | (.ok build, h2) =>
    let h3 := ext.bindAll build h2
    (.ok build, freezeVal build h3)

/-- SchemaBuilder.createBuild (lines 149-159): the build phase with
bindAll and freeze, then applyHooks(build, "init", empty object literal)
with the returned value discarded. -/
def createBuild (ext : Externals) (r : Registry) (heap : Heap) :
    Except JsError JSVal × Heap :=
  match createBuildPhase ext r heap with
  | (.error e, h) => (.error e, h)
  | (.ok build, h4) =>
    let initP := allocObj h4 []
    match applyHooks r build "init" initP.1 .vUndefined initP.2 with
    | (.error e, h6) => (.error e, h6)
    | (.ok _, h6) => (.ok build, h6)

/-- What a registered listen function does when the builder hands it the
triggerChange callback during watchSchema: either it just stores the
callback (the intended use), or it synchronously invokes it once. -/
inductive WatcherAct where
  | store
  | callTrigger
deriving DecidableEq, Repr

/-- Observable external calls performed by the builder, in order. The
trigger events carry the identity (session nonce) of the triggerChange
closure involved; emitSchema records the "schema" event with the
listeners subscribed at that moment. -/
inductive Event where
  | listen (watcherIdx : Nat) (triggerId : Nat)
  | unlisten (unwatcherIdx : Nat) (triggerId : Option Nat)
  | trigger (triggerId : Nat)
  | contextCreated (buildVal : JSVal)
  | constructed (artifact : JSVal)
  | emitSchema (artifact : JSVal) (listeners : List Nat)
deriving DecidableEq, Repr

/-- The mutable state of a SchemaBuilder instance (constructor lines
10-68 plus the fields assigned later). Listeners and triggerChange
closures are modelled by numeric identities; each watch session issues
a fresh triggerChange identity from nextTrigger. The depth counter and
currentPluginName are diagnostics-only and not part of this state. -/
structure Builder where
  hooks : Registry
  watchers : List WatcherAct
  unwatchers : Nat
  watching : Bool
  explicitSchemaListener : Option Nat
  schemaListeners : List Nat
  triggerChange : Option Nat
  nextTrigger : Nat
  generatedSchema : JSVal
  heap : Heap

def initialBuilder : Builder :=
  { hooks := initialHooks, watchers := [], unwatchers := 0, watching := false,
    explicitSchemaListener := none, schemaListeners := [], triggerChange := none,
    nextTrigger := 0, generatedSchema := .vUndefined, heap := [] }

/-- Result of running one builder method: the returned value or the
thrown error, the builder state afterwards (a throw keeps the mutations
already made), and the trace of observable external calls. -/
structure Step (α : Type) where
  res : Except JsError α
  b : Builder
  tr : List Event

/-- SchemaBuilder.addWatcher (lines 141-147): both a listen and an
unlisten function are required. -/
def addWatcherM (b : Builder) (listen : Option WatcherAct) (unlisten : Bool) :
    Except JsError Builder :=
  match listen with
  | none => .error (.error "You must provide both a listener and an unlistener")
  | some l =>
    if unlisten then
      .ok { b with watchers := b.watchers ++ [l], unwatchers := b.unwatchers + 1 }
    else .error (.error "You must provide both a listener and an unlistener")

/-- SchemaBuilder.buildSchema (lines 161-167): if this.generatedSchema
is falsy, run createBuild and build.buildObjectWithHooks(GraphQLSchema, ...)
and cache the result; otherwise return the cache. The contextCreated
and constructed trace events mark the two construction steps. -/
def buildSchemaM (ext : Externals) (b : Builder) : Step JSVal :=
  if truthy b.generatedSchema then ⟨.ok b.generatedSchema, b, []⟩
  else
    match createBuild ext b.hooks b.heap with
    | (.error e, h) => ⟨.error e, { b with heap := h }, []⟩
    | (.ok build, h) =>
      let cP := ext.construct build h
      ⟨.ok cP.1, { b with heap := cP.2, generatedSchema := cP.1 },
        [.contextCreated build, .constructed cP.1]⟩

/-- The triggerChange closure of lines 176-181, invoked with identity t:
set this.generatedSchema to null, then emit("schema", this.buildSchema()).
The changed flag it sets is modelled at the call sites. -/
def runTrigger (ext : Externals) (t : Nat) (b : Builder) : Step JSVal :=
  let s := buildSchemaM ext { b with generatedSchema := .vNull }
  match s.res with
  | .error e => ⟨.error e, s.b, (.trigger t :: s.tr)⟩
  | .ok art => ⟨.ok art, s.b, (.trigger t :: s.tr) ++ [.emitSchema art s.b.schemaListeners]⟩

/-- The this.watchers.forEach loop of lines 185-192: hand triggerChange
(identity t) to each listen function in order; after any listen that
synchronously invoked the trigger, throw. idx is the index of the first
watcher in ws. -/
def runWatchLoop (ext : Externals) (t : Nat) (idx : Nat) :
    List WatcherAct → Builder → Step Unit
  | [], b => ⟨.ok (), b, []⟩
  | w :: rest, b =>
    match w with
    | .store =>
      let s := runWatchLoop ext t (idx + 1) rest b
      ⟨s.res, s.b, (.listen idx t :: s.tr)⟩
    | .callTrigger =>
      let s := runTrigger ext t b
      match s.res with
      | .error e => ⟨.error e, s.b, (.listen idx t :: s.tr)⟩
      | .ok _ =>
        ⟨.error (.error "Watcher triggered schema change synchronously, that's a bug."),
          s.b, (.listen idx t :: s.tr)⟩

/-- SchemaBuilder.watchSchema (lines 169-194): refuse if already
watching; set the watching flag, record the explicit listener, issue a
fresh triggerChange closure, subscribe the listener to "schema", run
the watcher loop, then emit("schema", this.buildSchema()) once. -/
def watchSchemaM (ext : Externals) (listener : Option Nat) (b : Builder) : Step Unit :=
  if b.watching then ⟨.error (.error "We're already watching this schema!"), b, []⟩
  else
    let t := b.nextTrigger
    let b1 := { b with watching := true, explicitSchemaListener := listener,
                       triggerChange := some t, nextTrigger := t + 1 }
    let b2 :=
      match listener with
      | some l => { b1 with schemaListeners := b1.schemaListeners ++ [l] }
      | none => b1
    let s := runWatchLoop ext t 0 b2.watchers b2
    match s.res with
    | .error e => ⟨.error e, s.b, s.tr⟩
    | .ok _ =>
      let s2 := buildSchemaM ext s.b
      match s2.res with
      | .error e => ⟨.error e, s2.b, s.tr ++ s2.tr⟩
      | .ok art => ⟨.ok (), s2.b, s.tr ++ s2.tr ++ [.emitSchema art s2.b.schemaListeners]⟩

/-- SchemaBuilder.unwatchSchema (lines 196-210): refuse if not watching;
clear the watching flag and the explicit listener, then — when an
explicit listener was recorded — call this.removeEventListener, a
method EventEmitter does not have (its name is removeListener), which
throws a TypeError, leaving the unlisten calls unmade and triggerChange
in place. Without an explicit listener, call every unlisten with
this.triggerChange and then clear triggerChange. -/
def unwatchSchemaM (b : Builder) : Step Unit :=
  if b.watching then
    let b1 := { b with watching := false, explicitSchemaListener := none }
    match b.explicitSchemaListener with
    | some _ => ⟨.error (.typeError "this.removeEventListener is not a function"), b1, []⟩
    | none =>
      ⟨.ok (), { b1 with triggerChange := none },
        (List.range b.unwatchers).map (fun i => .unlisten i b.triggerChange)⟩
  else ⟨.error (.error "We're not watching this schema!"), b, []⟩

/-- Reference threading from the spec wording: v_i = h_i(v_(i-1), build,
context) in registration order, with each hook's heap effects applied,
and no truthiness checking. -/
def threadHooks : List Hook → JSVal → JSVal → JSVal → Heap → JSVal × Heap
  | [], _, _, obj, heap => (obj, heap)
  | h :: rest, build, ctx, obj, heap =>
    let r := h.fn obj build ctx heap
    threadHooks rest build ctx r.1 (applyOps heap r.2)

/-- Every value returned along the threading of the hooks is truthy. -/
def intermediatesTruthy : List Hook → JSVal → JSVal → JSVal → Heap → Bool
  | [], _, _, _, _ => true
  | h :: rest, build, ctx, obj, heap =>
    let r := h.fn obj build ctx heap
    truthy r.1 && intermediatesTruthy rest build ctx r.1 (applyOps heap r.2)

lemma hGet_some_lt {h : Heap} {i : Nat} {o : ObjData} (hg : hGet h i = some o) :
    i < h.length := by
  induction h generalizing i with
  | nil => simp [hGet] at hg
  | cons x t ih =>
    cases i with
    | zero => simp
    | succ n => exact Nat.succ_lt_succ (ih hg)

lemma hGet_of_lt {h : Heap} {i : Nat} (hi : i < h.length) :
    ∃ o, hGet h i = some o := by
  induction h generalizing i with
  | nil => simp at hi
  | cons x t ih =>
    cases i with
    | zero => exact ⟨x, rfl⟩
    | succ n => exact ih (Nat.lt_of_succ_lt_succ hi)

lemma hGet_append_left {h h2 : Heap} {i : Nat} (hi : i < h.length) :
    hGet (h ++ h2) i = hGet h i := by
  induction h generalizing i with
  | nil => simp at hi
  | cons x t ih =>
    cases i with
    | zero => rfl
    | succ n => exact ih (Nat.lt_of_succ_lt_succ hi)

lemma hGet_hSet_self {h : Heap} {i : Nat} {o o2 : ObjData}
    (hg : hGet h i = some o) : hGet (hSet h i o2) i = some o2 := by
  induction h generalizing i with
  | nil => simp [hGet] at hg
  | cons x t ih =>
    cases i with
    | zero => rfl
    | succ n => exact ih hg

lemma hGet_hSet_ne {h : Heap} {i j : Nat} {o2 : ObjData} (hne : j ≠ i) :
    hGet (hSet h j o2) i = hGet h i := by
  induction h generalizing i j with
  | nil => rfl
  | cons x t ih =>
    cases j with
    | zero =>
      cases i with
      | zero => exact absurd rfl hne
      | succ n => rfl
    | succ m =>
      cases i with
      | zero => rfl
      | succ n => exact ih (fun hmn => hne (congrArg Nat.succ hmn))

lemma hSet_length : ∀ (h : Heap) (i : Nat) (o : ObjData),
    (hSet h i o).length = h.length
  | [], _, _ => rfl
  | _ :: _, 0, _ => rfl
  | x :: t, n + 1, o => by simp [hSet, hSet_length t n o]

/-- A frozen object is untouched by any single heap mutation. -/
lemma applyOp_frozen {h : Heap} {i : Nat} {o : ObjData} (op : HeapOp)
    (hg : hGet h i = some o) (hf : o.frozen = true) :
    hGet (applyOp h op) i = some o := by
  cases op with
  | write j k v =>
    simp only [applyOp]
    cases hj : hGet h j with
    | none => exact hg
    | some o2 =>
      by_cases hij : j = i
      · subst hij
        rw [hj] at hg
        cases hg
        simp [hf, hj]
      · cases ho2 : o2.frozen with
        | true => simpa [ho2] using hg
        | false => simpa [ho2] using (hGet_hSet_ne hij).trans hg
  | freeze j =>
    simp only [applyOp]
    cases hj : hGet h j with
    | none => exact hg
    | some o2 =>
      by_cases hij : j = i
      · subst hij
        rw [hj] at hg
        cases hg
        show hGet (hSet h j ⟨o.fields, true⟩) j = some o
        have ho : (⟨o.fields, true⟩ : ObjData) = o := by
          cases o with
          | mk fs fr => cases hf; rfl
        rw [ho]
        exact hGet_hSet_self hj
      · exact (hGet_hSet_ne hij).trans hg
  | alloc fs =>
    simp only [applyOp]
    exact (hGet_append_left (hGet_some_lt hg)).trans hg

/-- A frozen object is untouched by any sequence of heap mutations. -/
lemma applyOps_frozen {i : Nat} {o : ObjData} (ops : List HeapOp) {h : Heap}
    (hg : hGet h i = some o) (hf : o.frozen = true) :
    hGet (applyOps h ops) i = some o := by
  induction ops generalizing h with
  | nil => exact hg
  | cons op rest ih => exact ih (applyOp_frozen op hg hf)

/-- Frozen objects survive a phase dispatch: hooks only mutate the heap
through HeapOps. -/
lemma runHooks_frozen {i : Nat} {o : ObjData} (phase : String)
    (hs : List Hook) (build ctx obj : JSVal) {heap : Heap}
    (hg : hGet heap i = some o) (hf : o.frozen = true) :
    hGet (runHooks phase hs build ctx obj heap).2 i = some o := by
  induction hs generalizing obj heap with
  | nil => exact hg
  | cons h rest ih =>
    simp only [runHooks]
    have hg2 := applyOps_frozen (h.fn obj build ctx heap).2 hg hf
    by_cases ht : truthy (h.fn obj build ctx heap).1
    · simpa [ht] using ih _ hg2
    · simpa [ht] using hg2

lemma applyHooks_frozen {i : Nat} {o : ObjData} (r : Registry)
    (build : JSVal) (hookName : String) (oldObj ctx : JSVal) {heap : Heap}
    (hg : hGet heap i = some o) (hf : o.frozen = true) :
    hGet (applyHooks r build hookName oldObj ctx heap).2 i = some o := by
  unfold applyHooks
  cases lookupHooks r hookName with
  | missing => exact hg
  | inherited => exact hg
  | hookList hs => exact runHooks_frozen hookName hs build ctx oldObj hg hf

/-- When every intermediate value is truthy, the dispatch loop computes
exactly the reference threading. -/
lemma runHooks_eq_thread (phase : String) (hs : List Hook)
    (build ctx : JSVal) {obj : JSVal} {heap : Heap}
    (ht : intermediatesTruthy hs build ctx obj heap = true) :
    runHooks phase hs build ctx obj heap =
      (.ok (threadHooks hs build ctx obj heap).1,
       (threadHooks hs build ctx obj heap).2) := by
  induction hs generalizing obj heap with
  | nil => rfl
  | cons h rest ih =>
    simp only [intermediatesTruthy, Bool.and_eq_true] at ht
    simp only [runHooks, threadHooks, ht.1, if_true]
    exact ih ht.2

lemma if_true_eq_true {α : Type} {a b : α} : (if true = true then a else b) = a := rfl

lemma if_false_eq_true {α : Type} {a b : α} : (if false = true then a else b) = b := rfl

/-- The dispatch loop stops at the first hook returning a falsy value:
the hooks after it are irrelevant to the result, and the loop throws
the Error naming that hook and the phase, with the heap as mutated up
to and including that hook. -/
lemma runHooks_falsy (phase : String) (pre : List Hook) (hk : Hook)
    (post : List Hook) (build ctx : JSVal) {obj : JSVal} {heap : Heap}
    (hpre : intermediatesTruthy pre build ctx obj heap = true)
    (hfal : truthy (hk.fn (threadHooks pre build ctx obj heap).1 build ctx
              (threadHooks pre build ctx obj heap).2).1 = false) :
    runHooks phase (pre ++ hk :: post) build ctx obj heap =
      (.error (.error (hookFalsyMsg (hookLabel hk) phase)),
       applyOps (threadHooks pre build ctx obj heap).2
         (hk.fn (threadHooks pre build ctx obj heap).1 build ctx
           (threadHooks pre build ctx obj heap).2).2) := by
  induction pre generalizing obj heap with
  | nil =>
    simp only [threadHooks] at hfal ⊢
    simp only [List.nil_append, runHooks, hfal, if_false_eq_true]
  | cons h rest ih =>
    simp only [intermediatesTruthy, Bool.and_eq_true] at hpre
    simp only [threadHooks] at hfal ⊢
    simp only [List.cons_append, runHooks, hpre.1, if_true_eq_true]
    exact ih hpre.2 hfal

/-- Concrete hook for witnesses: adds one to a numeric threaded value. -/
def incHook : Hook :=
  ⟨"", "inc", fun obj _ _ _ =>
    (match obj with | .vNum n => .vNum (n + 1) | _ => .vNull, [])⟩

/-- Concrete hook for witnesses: doubles a numeric threaded value. -/
def dblHook : Hook :=
  ⟨"", "dbl", fun obj _ _ _ =>
    (match obj with | .vNum n => .vNum (2 * n) | _ => .vNull, [])⟩

/-- Concrete hook for witnesses: always returns null (falsy). -/
def nullHook : Hook := ⟨"bad", "", fun _ _ _ _ => (.vNull, [])⟩

/-- A registry with incHook then dblHook registered for the build phase. -/
def demoRegistry : Registry :=
  (hookMethod (hookMethod initialHooks none "build" incHook).2 none "build" dblHook).2

/-- A registry whose build phase is incHook, nullHook, dblHook. -/
def badRegistry : Registry :=
  (hookMethod (hookMethod (hookMethod initialHooks none "build" incHook).2
    none "build" nullHook).2 none "build" dblHook).2

/-- C1: for every phase name P with hooks h1..hn registered in that
order, applyHooks(build, P, v0, context) threads the value through the
hooks exactly in registration order — it returns the final value vn of
the recurrence v_i = h_i(v_(i-1), build, context) (the fold
threadHooks), and with n = 0 it returns v0 unchanged (threadHooks of
the empty list). The hypothesis that each intermediate value is truthy
is the normal-operation condition; a falsy intermediate is the abort
case of C2. -/
theorem applyHooks_threads_in_registration_order
    (r : Registry) (build : JSVal) (P : String) (v0 ctx : JSVal) (heap : Heap)
    (hs : List Hook)
    (hl : lookupOwn r P = some hs)
    (ht : intermediatesTruthy hs build ctx v0 heap = true) :
    applyHooks r build P v0 ctx heap =
      (.ok (threadHooks hs build ctx v0 heap).1,
       (threadHooks hs build ctx v0 heap).2) := by
  simp only [applyHooks, lookupHooks, hl]
  exact runHooks_eq_thread P hs build ctx ht

theorem applyHooks_threads_in_registration_order_witness :
    lookupOwn demoRegistry "build" = some [incHook, dblHook] ∧
    intermediatesTruthy [incHook, dblHook] .vNull .vUndefined (.vNum 3) [] = true ∧
    applyHooks demoRegistry .vNull "build" (.vNum 3) .vUndefined [] =
      (.ok (threadHooks [incHook, dblHook] .vNull .vUndefined (.vNum 3) []).1,
       (threadHooks [incHook, dblHook] .vNull .vUndefined (.vNum 3) []).2) :=
  ⟨rfl, rfl,
   applyHooks_threads_in_registration_order demoRegistry .vNull "build"
     (.vNum 3) .vUndefined [] [incHook, dblHook] rfl rfl⟩

/-- C2: if the hook hk (preceded by pre, followed by post) returns a
falsy value, applyHooks throws the HookReturnedEmpty Error naming that
hook and the phase, with the heap as mutated up to and including hk.
The conclusion does not depend on post, so no hook after hk is invoked;
the Except error is the immediate propagation to the caller of the
dispatch — nothing in applyHooks catches it. -/
theorem applyHooks_falsy_aborts_phase
    (r : Registry) (build : JSVal) (P : String) (v0 ctx : JSVal) (heap : Heap)
    (pre : List Hook) (hk : Hook) (post : List Hook)
    (hl : lookupOwn r P = some (pre ++ hk :: post))
    (hpre : intermediatesTruthy pre build ctx v0 heap = true)
    (hfal : truthy (hk.fn (threadHooks pre build ctx v0 heap).1 build ctx
              (threadHooks pre build ctx v0 heap).2).1 = false) :
    applyHooks r build P v0 ctx heap =
      (.error (.error (hookFalsyMsg (hookLabel hk) P)),
       applyOps (threadHooks pre build ctx v0 heap).2
         (hk.fn (threadHooks pre build ctx v0 heap).1 build ctx
           (threadHooks pre build ctx v0 heap).2).2) := by
  simp only [applyHooks, lookupHooks, hl]
  exact runHooks_falsy P pre hk post build ctx hpre hfal

theorem applyHooks_falsy_aborts_phase_witness :
    lookupOwn badRegistry "build" = some ([incHook] ++ nullHook :: [dblHook]) ∧
    intermediatesTruthy [incHook] .vNull .vUndefined (.vNum 3) [] = true ∧
    truthy (nullHook.fn (threadHooks [incHook] .vNull .vUndefined (.vNum 3) []).1
      .vNull .vUndefined (threadHooks [incHook] .vNull .vUndefined (.vNum 3) []).2).1
      = false ∧
    applyHooks badRegistry .vNull "build" (.vNum 3) .vUndefined [] =
      (.error (.error (hookFalsyMsg (hookLabel nullHook) "build")),
       applyOps (threadHooks [incHook] .vNull .vUndefined (.vNum 3) []).2
         (nullHook.fn (threadHooks [incHook] .vNull .vUndefined (.vNum 3) []).1
           .vNull .vUndefined
           (threadHooks [incHook] .vNull .vUndefined (.vNum 3) []).2).2) :=
  ⟨rfl, rfl, rfl,
   applyHooks_falsy_aborts_phase badRegistry .vNull "build" (.vNum 3) .vUndefined []
     [incHook] nullHook [dblHook] rfl rfl rfl⟩

lemma lookupOwn_eq_none {r : Registry} {n : String} (h : n ∉ keysOf r) :
    lookupOwn r n = none := by
  induction r with
  | nil => rfl
  | cons p rest ih =>
    simp only [keysOf, List.map_cons, List.mem_cons, not_or] at h
    cases p with
    | mk k hs =>
      simp only [lookupOwn]
      rw [if_neg (fun hkn => h.1 hkn.symm)]
      exact ih (by simpa [keysOf] using h.2)

/-- C9 counterexample: "toString" is not a pre-declared phase name, yet
neither registering against it nor dispatching it fails with the
UnknownPhase error ("Sorry, ... is not a supported/registered hook"):
this.hooks is an object literal, so this.hooks["toString"] is the
inherited Object.prototype.toString function — truthy — and both calls
instead die with a TypeError (push is not a function resp. the for..of
iteration of a non-iterable). -/
theorem unknown_phase_toString_cex :
    "toString" ∉ phaseNames ∧
    hookMethod initialHooks none "toString" incHook =
      (.error (.typeError "this.hooks[hookName].push is not a function"), initialHooks) ∧
    JsError.typeError "this.hooks[hookName].push is not a function" ≠
      .error (notSupportedMsg "toString") ∧
    applyHooks initialHooks .vNull "toString" (.vNum 1) .vUndefined [] =
      (.error (.typeError "hooks is not iterable"), []) ∧
    JsError.typeError "hooks is not iterable" ≠ .error (notRegisteredMsg "toString") :=
  ⟨by decide, rfl, by decide, rfl, by decide⟩

/-- C9 amended: for every name that is neither a pre-declared phase name
nor an Object.prototype property name, both registering (hook) and
dispatching (applyHooks) fail with the UnknownPhase error and leave the
registry (returned unchanged alongside the error) and the heap
untouched; for a non-declared name inherited from Object.prototype both
calls still fail — never a silent no-op — but with a TypeError instead
of the UnknownPhase error, again leaving registry and heap unchanged. -/
theorem unknown_phase_errors
    (r : Registry) (cpn : Option String) (name : String) (fn : Hook)
    (build obj ctx : JSVal) (heap : Heap)
    (hk : keysOf r = phaseNames) (hn : name ∉ phaseNames) :
    (name ∉ objectProtoProps →
       hookMethod r cpn name fn = (.error (.error (notSupportedMsg name)), r) ∧
       applyHooks r build name obj ctx heap =
         (.error (.error (notRegisteredMsg name)), heap)) ∧
    (name ∈ objectProtoProps →
       hookMethod r cpn name fn =
         (.error (.typeError "this.hooks[hookName].push is not a function"), r) ∧
       applyHooks r build name obj ctx heap =
         (.error (.typeError "hooks is not iterable"), heap)) := by
  have hnone : lookupOwn r name = none := lookupOwn_eq_none (by rw [hk]; exact hn)
  constructor
  · intro hp
    constructor
    · simp [hookMethod, lookupHooks, hnone, hp]
    · simp [applyHooks, lookupHooks, hnone, hp]
  · intro hp
    constructor
    · simp [hookMethod, lookupHooks, hnone, hp]
    · simp [applyHooks, lookupHooks, hnone, hp]

theorem unknown_phase_errors_witness :
    keysOf initialHooks = phaseNames ∧ "myPhase" ∉ phaseNames ∧
    (("myPhase" : String) ∉ objectProtoProps →
       hookMethod initialHooks none "myPhase" incHook =
         (.error (.error (notSupportedMsg "myPhase")), initialHooks) ∧
       applyHooks initialHooks .vNull "myPhase" (.vNum 1) .vUndefined [] =
         (.error (.error (notRegisteredMsg "myPhase")), [])) ∧
    (("myPhase" : String) ∈ objectProtoProps →
       hookMethod initialHooks none "myPhase" incHook =
         (.error (.typeError "this.hooks[hookName].push is not a function"), initialHooks) ∧
       applyHooks initialHooks .vNull "myPhase" (.vNum 1) .vUndefined [] =
         (.error (.typeError "hooks is not iterable"), [])) :=
  ⟨rfl, by decide,
   (unknown_phase_errors initialHooks none "myPhase" incHook .vNull (.vNum 1)
     .vUndefined [] rfl (by decide)).1,
   (unknown_phase_errors initialHooks none "myPhase" incHook .vNull (.vNum 1)
     .vUndefined [] rfl (by decide)).2⟩

/-- Concrete seed provider for the C4 counterexample: makeNewBuild
yields the primitive 42 without touching the heap, so a hook can reveal
which argument position the seed arrives in. -/
def seedExt : Externals :=
  ⟨fun h => (.vNum 42, h), fun _ h => h, fun _ h => (.vNull, h)⟩

/-- Hook returning its first (threaded-value) argument unchanged. -/
def firstArgHook : Hook := ⟨"", "h1", fun obj _ _ _ => (obj, [])⟩

/-- Hook returning its third (context) argument. -/
def ctxArgHook : Hook := ⟨"", "h2", fun _ _ ctx _ => (ctx, [])⟩

/-- C4 counterexample: createBuild runs applyHooks(null, "build",
makeNewBuild(this)), so the seed is the initial threaded value, null is
the build argument, and the context argument is undefined — not what
the claim says. With the seed 42: a build hook that returns its
threaded value yields 42 (were the claim true, the initial threaded
value would be null, so this hook would return null and createBuild
would abort with HookReturnedEmpty); a build hook that returns its
context argument aborts with HookReturnedEmpty because the context
argument is undefined (were the claim true it would be the truthy seed
42 and the dispatch would succeed). -/
theorem createBuild_null_seed_args_cex :
    (createBuildPhase seedExt (hookMethod initialHooks none "build" firstArgHook).2 []).1
      = .ok (.vNum 42) ∧
    (JSVal.vNum 42 ≠ .vNull) ∧
    (createBuildPhase seedExt (hookMethod initialHooks none "build" ctxArgHook).2 []).1
      = .error (.error (hookFalsyMsg "h2" "build")) :=
  ⟨rfl, by decide, rfl⟩

/-- C4 amended: createBuild dispatches the build phase passing
makeNewBuild's result as the initial threaded value, null as the build
argument and undefined as the context argument seen by each hook: under
normal operation the value produced by the build phase of
createBuildPhase is the seed threaded through the hooks with build =
null and context = undefined. -/
theorem createBuild_build_dispatch_args
    (ext : Externals) (r : Registry) (heap : Heap) (hs : List Hook)
    (hl : lookupOwn r "build" = some hs)
    (ht : intermediatesTruthy hs .vNull .vUndefined (ext.makeNewBuild heap).1
            (ext.makeNewBuild heap).2 = true) :
    (createBuildPhase ext r heap).1 =
      .ok (threadHooks hs .vNull .vUndefined (ext.makeNewBuild heap).1
            (ext.makeNewBuild heap).2).1 := by
  simp only [createBuildPhase, applyHooks, lookupHooks, hl]
  rw [runHooks_eq_thread "build" hs .vNull .vUndefined ht]

theorem createBuild_build_dispatch_args_witness :
    lookupOwn demoRegistry "build" = some [incHook, dblHook] ∧
    intermediatesTruthy [incHook, dblHook] .vNull .vUndefined
      (seedExt.makeNewBuild []).1 (seedExt.makeNewBuild []).2 = true ∧
    (createBuildPhase seedExt demoRegistry []).1 =
      .ok (threadHooks [incHook, dblHook] .vNull .vUndefined
            (seedExt.makeNewBuild []).1 (seedExt.makeNewBuild []).2).1 :=
  ⟨rfl, rfl,
   createBuild_build_dispatch_args seedExt demoRegistry [] [incHook, dblHook] rfl rfl⟩

lemma freezeObj_length (h : Heap) (j : Nat) : (freezeObj h j).length = h.length := by
  unfold freezeObj
  cases hj : hGet h j with
  | none => rfl
  | some o => exact hSet_length h j _

lemma freezeObj_frozen {h : Heap} {j : Nat} (hj : j < h.length) :
    ∃ o, hGet (freezeObj h j) j = some o ∧ o.frozen = true := by
  obtain ⟨o0, ho0⟩ := hGet_of_lt hj
  refine ⟨⟨o0.fields, true⟩, ?_, rfl⟩
  unfold freezeObj
  rw [ho0]
  exact hGet_hSet_self ho0

/-- Concrete externals for witnesses: makeNewBuild allocates a fresh
empty object as the seed context, bindAll is the identity on the heap,
and the artifact constructor allocates a fresh object per call. -/
def extW : Externals :=
  ⟨fun h => (.vObj h.length, h ++ [⟨[], false⟩]),
   fun _ h => h,
   fun _ h => (.vObj h.length, h ++ [⟨[], false⟩])⟩

/-- C3: when the build phase of createBuild produces the context object
i (heap h4), that object is frozen in h4 — the heap in hand when the
init phase is dispatched, so the freeze happens after the build phase
completes and before init — and whatever createBuild returns
(even if an init hook failed), the context is frozen in the final heap
and no sequence of heap mutations (the only writes JS user code can
express) changes it: every later write attempt on it is a no-op. -/
theorem createBuild_freezes_context
    (ext : Externals) (r : Registry) (heap : Heap) (i : Nat) (h4 : Heap)
    (hp : createBuildPhase ext r heap = (.ok (.vObj i), h4))
    (hi : i < h4.length) :
    (∃ o, hGet h4 i = some o ∧ o.frozen = true) ∧
    ∀ res h6, createBuild ext r heap = (res, h6) →
      ∃ o, hGet h6 i = some o ∧ o.frozen = true ∧
        ∀ ops, hGet (applyOps h6 ops) i = some o := by
  have hfz : ∃ o, hGet h4 i = some o ∧ o.frozen = true := by
    rcases hap : applyHooks r .vNull "build" (ext.makeNewBuild heap).1 .vUndefined
        (ext.makeNewBuild heap).2 with ⟨res2, h2⟩
    simp only [createBuildPhase, hap] at hp
    cases res2 with
    | error e => simp at hp
    | ok v =>
      simp only [Prod.mk.injEq, Except.ok.injEq] at hp
      obtain ⟨hv, hh⟩ := hp
      subst hv
      have hi3 : i < (ext.bindAll (.vObj i) h2).length := by
        have := freezeObj_length (ext.bindAll (.vObj i) h2) i
        rw [← hh] at hi
        simpa [freezeVal, this] using hi
      obtain ⟨o, ho, hof⟩ := freezeObj_frozen hi3
      exact ⟨o, by rw [← hh]; exact ho, hof⟩
  refine ⟨hfz, ?_⟩
  intro res h6 hcb
  obtain ⟨o, ho, hof⟩ := hfz
  have h5get : hGet (h4 ++ [⟨[], false⟩]) i = some o := (hGet_append_left hi).trans ho
  simp only [createBuild, hp, allocObj] at hcb
  rcases hini : applyHooks r (.vObj i) "init" (.vObj h4.length) .vUndefined
      (h4 ++ [⟨[], false⟩]) with ⟨res3, h7⟩
  have h7get : hGet h7 i = some o := by
    have hfr := applyHooks_frozen r (.vObj i) "init" (.vObj h4.length) .vUndefined
      h5get hof
    rw [hini] at hfr
    exact hfr
  rw [hini] at hcb
  cases res3 with
  | error e =>
    have h6eq : h6 = h7 := (congrArg Prod.snd hcb).symm
    exact ⟨o, by rw [h6eq]; exact h7get, hof,
      fun ops => by rw [h6eq]; exact applyOps_frozen ops h7get hof⟩
  | ok v2 =>
    have h6eq : h6 = h7 := (congrArg Prod.snd hcb).symm
    exact ⟨o, by rw [h6eq]; exact h7get, hof,
      fun ops => by rw [h6eq]; exact applyOps_frozen ops h7get hof⟩

theorem createBuild_freezes_context_witness :
    createBuildPhase extW initialHooks [] = (.ok (.vObj 0), [⟨[], true⟩]) ∧
    0 < ([⟨[], true⟩] : Heap).length ∧
    ((∃ o, hGet [⟨[], true⟩] 0 = some o ∧ o.frozen = true) ∧
     ∀ res h6, createBuild extW initialHooks [] = (res, h6) →
       ∃ o, hGet h6 0 = some o ∧ o.frozen = true ∧
         ∀ ops, hGet (applyOps h6 ops) 0 = some o) :=
  ⟨rfl, by decide,
   createBuild_freezes_context extW initialHooks [] 0 [⟨[], true⟩] rfl (by decide)⟩

/-- With a truthy cached artifact, buildSchema returns it unchanged and
does nothing else. -/
lemma buildSchemaM_cached (ext : Externals) (B : Builder)
    (hB : truthy B.generatedSchema = true) :
    buildSchemaM ext B = ⟨.ok B.generatedSchema, B, []⟩ := by
  simp [buildSchemaM, hB]

/-- C5: buildSchema is idempotent with respect to the cache. Starting
from an empty (falsy) cache — the state triggerChange leaves behind —
one call performs exactly one context creation and one artifact
construction (the trace), caches the artifact, and a second call with
no intervening invalidation returns the reference-identical cached
artifact with no rebuilding at all: same result, unchanged builder
state, empty trace. -/
theorem buildSchema_cache_idempotent
    (ext : Externals) (b : Builder) (bv : JSVal) (h2 : Heap)
    (hfal : truthy b.generatedSchema = false)
    (hcb : createBuild ext b.hooks b.heap = (.ok bv, h2))
    (htr : truthy (ext.construct bv h2).1 = true) :
    (buildSchemaM ext b).res = .ok (ext.construct bv h2).1 ∧
    (buildSchemaM ext b).tr =
      [.contextCreated bv, .constructed (ext.construct bv h2).1] ∧
    (buildSchemaM ext (buildSchemaM ext b).b).res = .ok (ext.construct bv h2).1 ∧
    (buildSchemaM ext (buildSchemaM ext b).b).b = (buildSchemaM ext b).b ∧
    (buildSchemaM ext (buildSchemaM ext b).b).tr = [] := by
  have h1 : buildSchemaM ext b =
      ⟨.ok (ext.construct bv h2).1,
       { b with heap := (ext.construct bv h2).2,
                generatedSchema := (ext.construct bv h2).1 },
       [.contextCreated bv, .constructed (ext.construct bv h2).1]⟩ := by
    simp [buildSchemaM, hfal, hcb]
  have harts : (buildSchemaM ext b).b.generatedSchema = (ext.construct bv h2).1 := by
    rw [h1]
  have htr2 : truthy (buildSchemaM ext b).b.generatedSchema = true := by
    rw [harts]; exact htr
  have h2nd : buildSchemaM ext (buildSchemaM ext b).b =
      ⟨.ok (ext.construct bv h2).1, (buildSchemaM ext b).b, []⟩ := by
    rw [buildSchemaM_cached ext _ htr2, harts]
  exact ⟨by rw [h1], by rw [h1], by rw [h2nd], by rw [h2nd], by rw [h2nd]⟩

theorem buildSchema_cache_idempotent_witness :
    truthy initialBuilder.generatedSchema = false ∧
    createBuild extW initialBuilder.hooks initialBuilder.heap =
      (.ok (.vObj 0), [⟨[], true⟩, ⟨[], false⟩]) ∧
    truthy (extW.construct (.vObj 0) [⟨[], true⟩, ⟨[], false⟩]).1 = true ∧
    ((buildSchemaM extW initialBuilder).res =
       .ok (extW.construct (.vObj 0) [⟨[], true⟩, ⟨[], false⟩]).1 ∧
     (buildSchemaM extW initialBuilder).tr =
       [.contextCreated (.vObj 0),
        .constructed (extW.construct (.vObj 0) [⟨[], true⟩, ⟨[], false⟩]).1] ∧
     (buildSchemaM extW (buildSchemaM extW initialBuilder).b).res =
       .ok (extW.construct (.vObj 0) [⟨[], true⟩, ⟨[], false⟩]).1 ∧
     (buildSchemaM extW (buildSchemaM extW initialBuilder).b).b =
       (buildSchemaM extW initialBuilder).b ∧
     (buildSchemaM extW (buildSchemaM extW initialBuilder).b).tr = []) :=
  ⟨rfl, rfl, rfl,
   buildSchema_cache_idempotent extW initialBuilder (.vObj 0)
     [⟨[], true⟩, ⟨[], false⟩] rfl rfl rfl⟩

/-- Running the triggerChange closure when the rebuild succeeds:
invalidate the cache, re-create the context, reconstruct the artifact,
cache it, and emit it to the current subscribers. -/
lemma runTrigger_ok
    (ext : Externals) (t : Nat) (B : Builder) (bv : JSVal) (h2 : Heap)
    (hcb : createBuild ext B.hooks B.heap = (.ok bv, h2)) :
    runTrigger ext t B =
      ⟨.ok (ext.construct bv h2).1,
       { B with heap := (ext.construct bv h2).2,
                generatedSchema := (ext.construct bv h2).1 },
       [.trigger t, .contextCreated bv, .constructed (ext.construct bv h2).1,
        .emitSchema (ext.construct bv h2).1 B.schemaListeners]⟩ := by
  have hs : buildSchemaM ext { B with generatedSchema := .vNull } =
      ⟨.ok (ext.construct bv h2).1,
       { B with heap := (ext.construct bv h2).2,
                generatedSchema := (ext.construct bv h2).1 },
       [.contextCreated bv, .constructed (ext.construct bv h2).1]⟩ := by
    simp [buildSchemaM, truthy, hcb]
  simp [runTrigger, hs]

/-- C6 counterexample: on the very first rebuild after a change trigger,
the context is created again — the trigger-driven rebuild emits a
contextCreated event for a context object (id 3) distinct from the one
of the initial build (id 0). The claim that the frozen context is
created once and reused across every triggerChange-driven rebuild is
false: buildSchema calls createBuild unconditionally whenever the
artifact cache is empty. -/
theorem trigger_recreates_context_cex :
    (buildSchemaM extW initialBuilder).tr =
      [.contextCreated (.vObj 0), .constructed (.vObj 2)] ∧
    (runTrigger extW 0 (buildSchemaM extW initialBuilder).b).tr =
      [.trigger 0, .contextCreated (.vObj 3), .constructed (.vObj 5),
       .emitSchema (.vObj 5) []] ∧
    (JSVal.vObj 3 ≠ .vObj 0) :=
  ⟨rfl, rfl, by decide⟩

/-- C6 amended: a change trigger discards only the cached artifact —
the hook registry, the watcher lists, the watch state, the subscribers
and the triggerChange identity are untouched — but the subsequent
rebuild does not reuse the previous frozen context: createBuild runs
afresh on every trigger-driven rebuild (the contextCreated event),
after which the new artifact is constructed, cached and emitted. -/
theorem trigger_discards_artifact_recreates_context
    (ext : Externals) (t : Nat) (b : Builder) (bv : JSVal) (h2 : Heap)
    (hcb : createBuild ext b.hooks b.heap = (.ok bv, h2)) :
    (runTrigger ext t b).tr =
      [.trigger t, .contextCreated bv, .constructed (ext.construct bv h2).1,
       .emitSchema (ext.construct bv h2).1 b.schemaListeners] ∧
    (runTrigger ext t b).res = .ok (ext.construct bv h2).1 ∧
    (runTrigger ext t b).b.hooks = b.hooks ∧
    (runTrigger ext t b).b.watchers = b.watchers ∧
    (runTrigger ext t b).b.unwatchers = b.unwatchers ∧
    (runTrigger ext t b).b.watching = b.watching ∧
    (runTrigger ext t b).b.explicitSchemaListener = b.explicitSchemaListener ∧
    (runTrigger ext t b).b.schemaListeners = b.schemaListeners ∧
    (runTrigger ext t b).b.triggerChange = b.triggerChange ∧
    (runTrigger ext t b).b.generatedSchema = (ext.construct bv h2).1 := by
  rw [runTrigger_ok ext t b bv h2 hcb]
  exact ⟨rfl, rfl, rfl, rfl, rfl, rfl, rfl, rfl, rfl, rfl⟩

theorem trigger_discards_artifact_recreates_context_witness :
    createBuild extW initialBuilder.hooks initialBuilder.heap =
      (.ok (.vObj 0), [⟨[], true⟩, ⟨[], false⟩]) ∧
    ((runTrigger extW 7 initialBuilder).tr =
      [.trigger 7, .contextCreated (.vObj 0),
       .constructed (extW.construct (.vObj 0) [⟨[], true⟩, ⟨[], false⟩]).1,
       .emitSchema (extW.construct (.vObj 0) [⟨[], true⟩, ⟨[], false⟩]).1
         initialBuilder.schemaListeners] ∧
     (runTrigger extW 7 initialBuilder).res =
       .ok (extW.construct (.vObj 0) [⟨[], true⟩, ⟨[], false⟩]).1 ∧
     (runTrigger extW 7 initialBuilder).b.hooks = initialBuilder.hooks ∧
     (runTrigger extW 7 initialBuilder).b.watchers = initialBuilder.watchers ∧
     (runTrigger extW 7 initialBuilder).b.unwatchers = initialBuilder.unwatchers ∧
     (runTrigger extW 7 initialBuilder).b.watching = initialBuilder.watching ∧
     (runTrigger extW 7 initialBuilder).b.explicitSchemaListener =
       initialBuilder.explicitSchemaListener ∧
     (runTrigger extW 7 initialBuilder).b.schemaListeners =
       initialBuilder.schemaListeners ∧
     (runTrigger extW 7 initialBuilder).b.triggerChange =
       initialBuilder.triggerChange ∧
     (runTrigger extW 7 initialBuilder).b.generatedSchema =
       (extW.construct (.vObj 0) [⟨[], true⟩, ⟨[], false⟩]).1) :=
  ⟨rfl,
   trigger_discards_artifact_recreates_context extW 7 initialBuilder (.vObj 0)
     [⟨[], true⟩, ⟨[], false⟩] rfl⟩

lemma listen_range_shift (idx n t : Nat) :
    Event.listen idx t :: (List.range n).map (fun j => Event.listen (idx + 1 + j) t) =
      (List.range (n + 1)).map (fun j => Event.listen (idx + j) t) := by
  simp only [List.range_succ_eq_map, List.map_cons, List.map_map, Nat.add_zero]
  congr 1
  apply List.map_congr_left
  intro j _
  simp only [Function.comp_apply]
  congr 1
  omega

/-- The watcher loop on k well-behaved (store) listen functions followed
by one that synchronously invokes the trigger: the first k watchers are
handed the callback, the next one fires the trigger, whose whole effect
(state and trace) happens, and then the loop throws — the sync-change
error when the trigger completed, or the error the trigger itself threw
— without reaching any later watcher. -/
lemma runWatchLoop_store_then_trigger
    (ext : Externals) (t : Nat) (k idx : Nat) (rest : List WatcherAct) (b : Builder) :
    runWatchLoop ext t idx (List.replicate k .store ++ .callTrigger :: rest) b =
      ⟨match (runTrigger ext t b).res with
        | .error e => .error e
        | .ok _ =>
          .error (.error "Watcher triggered schema change synchronously, that's a bug."),
       (runTrigger ext t b).b,
       ((List.range (k + 1)).map (fun j => Event.listen (idx + j) t)) ++
         (runTrigger ext t b).tr⟩ := by
  induction k generalizing idx with
  | zero =>
    simp only [List.replicate, List.nil_append, runWatchLoop]
    cases hres : (runTrigger ext t b).res with
    | error e => simp [hres, show List.range 1 = [0] from rfl]
    | ok a => simp [hres, show List.range 1 = [0] from rfl]
  | succ n ih =>
    simp only [List.replicate_succ, List.cons_append, runWatchLoop, List.append_eq,
      ih (idx + 1)]
    rw [← List.cons_append, listen_range_shift idx (n + 1) t]

/-- C7: a watcher whose listen synchronously invokes the trigger
callback it is handed during subscription (preceded by any number of
well-behaved watchers and followed by anything) makes watchSchema fail
with the SynchronousChangeDuringSubscribe error instead of completing
the watch setup — given that the builder was not already watching and
that the rebuild forced by the trigger succeeds. -/
theorem watchSchema_sync_trigger_fails
    (ext : Externals) (l : Option Nat) (b : Builder) (k : Nat)
    (rest : List WatcherAct) (bv : JSVal) (h2 : Heap)
    (hnw : b.watching = false)
    (hws : b.watchers = List.replicate k .store ++ .callTrigger :: rest)
    (hcb : createBuild ext b.hooks b.heap = (.ok bv, h2)) :
    (watchSchemaM ext l b).res =
      .error (.error "Watcher triggered schema change synchronously, that's a bug.") := by
  cases l with
  | none =>
    simp only [watchSchemaM, hnw, if_false_eq_true]
    rw [hws, runWatchLoop_store_then_trigger,
      runTrigger_ok ext b.nextTrigger
        { hooks := b.hooks,
          watchers := List.replicate k .store ++ .callTrigger :: rest,
          unwatchers := b.unwatchers, watching := true,
          explicitSchemaListener := none, schemaListeners := b.schemaListeners,
          triggerChange := some b.nextTrigger, nextTrigger := b.nextTrigger + 1,
          generatedSchema := b.generatedSchema, heap := b.heap } bv h2 hcb]
  | some ln =>
    simp only [watchSchemaM, hnw, if_false_eq_true]
    rw [hws, runWatchLoop_store_then_trigger,
      runTrigger_ok ext b.nextTrigger
        { hooks := b.hooks,
          watchers := List.replicate k .store ++ .callTrigger :: rest,
          unwatchers := b.unwatchers, watching := true,
          explicitSchemaListener := some ln,
          schemaListeners := b.schemaListeners ++ [ln],
          triggerChange := some b.nextTrigger, nextTrigger := b.nextTrigger + 1,
          generatedSchema := b.generatedSchema, heap := b.heap } bv h2 hcb]

theorem watchSchema_sync_trigger_fails_witness :
    initialBuilder.watching = false ∧
    ([WatcherAct.callTrigger] : List WatcherAct) =
      List.replicate 0 .store ++ .callTrigger :: [] ∧
    createBuild extW initialBuilder.hooks initialBuilder.heap =
      (.ok (.vObj 0), [⟨[], true⟩, ⟨[], false⟩]) ∧
    (watchSchemaM extW none { initialBuilder with watchers := [.callTrigger] }).res =
      .error (.error "Watcher triggered schema change synchronously, that's a bug.") :=
  ⟨rfl, rfl, rfl,
   watchSchema_sync_trigger_fails extW none
     { initialBuilder with watchers := [.callTrigger] } 0 [] (.vObj 0)
     [⟨[], true⟩, ⟨[], false⟩] rfl rfl rfl⟩

/-- C8: evaluation at the failing input. watchSchema(listener) with a
non-null listener succeeds (listener subscribed, triggerChange issued),
but the following unwatchSchema throws the TypeError from calling
this.removeEventListener — a method Node EventEmitter does not have
(its name is removeListener) — after having already cleared the
watching flag: the listener is still subscribed, no unlisten is called
(empty trace), and the triggerChange reference is not discarded. -/
theorem unwatch_removeEventListener_typeError :
    (watchSchemaM extW (some 5) initialBuilder).res = .ok () ∧
    (watchSchemaM extW (some 5) initialBuilder).b.watching = true ∧
    (watchSchemaM extW (some 5) initialBuilder).b.schemaListeners = [5] ∧
    (watchSchemaM extW (some 5) initialBuilder).b.triggerChange = some 0 ∧
    (unwatchSchemaM (watchSchemaM extW (some 5) initialBuilder).b).res =
      .error (.typeError "this.removeEventListener is not a function") ∧
    (unwatchSchemaM (watchSchemaM extW (some 5) initialBuilder).b).b.schemaListeners
      = [5] ∧
    (unwatchSchemaM (watchSchemaM extW (some 5) initialBuilder).b).b.triggerChange
      = some 0 ∧
    (unwatchSchemaM (watchSchemaM extW (some 5) initialBuilder).b).b.watching
      = false ∧
    (unwatchSchemaM (watchSchemaM extW (some 5) initialBuilder).b).tr = [] :=
  ⟨rfl, rfl, rfl, rfl, rfl, rfl, rfl, rfl, rfl⟩

/-- C10 counterexample: when the failed watchSchema had been passed an
explicit listener, the subsequent unwatchSchema does not succeed — it
throws the removeEventListener TypeError (the C8 slip) — so the claim
that unwatchSchema succeeds after a synchronous-trigger failure is
false as stated. -/
theorem watch_failure_state_cex :
    (watchSchemaM extW (some 9) { initialBuilder with watchers := [.callTrigger] }).res
      = .error (.error "Watcher triggered schema change synchronously, that's a bug.") ∧
    (unwatchSchemaM (watchSchemaM extW (some 9)
        { initialBuilder with watchers := [.callTrigger] }).b).res =
      .error (.typeError "this.removeEventListener is not a function") :=
  ⟨rfl, rfl⟩

/-- C10 amended: when watchSchema (called with no explicit listener)
fails because a watcher synchronously invoked the trigger callback, the
builder stays in the watching state with the session triggerChange
still recorded — every subsequent watchSchema fails with
AlreadyWatching, and unwatchSchema succeeds (it would instead throw the
removeEventListener TypeError had an explicit listener been passed, see
the counterexample) — and the trace shows that the synchronous trigger
already invalidated, re-created the context, reconstructed the
artifact and emitted it before the error was thrown: the failed
watchSchema rolls back none of it. -/
theorem watch_failure_no_rollback
    (ext : Externals) (b : Builder) (k : Nat) (rest : List WatcherAct)
    (bv : JSVal) (h2 : Heap)
    (hnw : b.watching = false)
    (hws : b.watchers = List.replicate k .store ++ .callTrigger :: rest)
    (hcb : createBuild ext b.hooks b.heap = (.ok bv, h2)) :
    (watchSchemaM ext none b).res =
      .error (.error "Watcher triggered schema change synchronously, that's a bug.") ∧
    (watchSchemaM ext none b).b.watching = true ∧
    (watchSchemaM ext none b).b.explicitSchemaListener = none ∧
    (watchSchemaM ext none b).b.triggerChange = some b.nextTrigger ∧
    (∀ l2, (watchSchemaM ext l2 (watchSchemaM ext none b).b).res =
      .error (.error "We're already watching this schema!")) ∧
    (unwatchSchemaM (watchSchemaM ext none b).b).res = .ok () ∧
    (unwatchSchemaM (watchSchemaM ext none b).b).b.watching = false ∧
    (unwatchSchemaM (watchSchemaM ext none b).b).b.triggerChange = none ∧
    (watchSchemaM ext none b).tr =
      ((List.range (k + 1)).map (fun j => Event.listen (0 + j) b.nextTrigger)) ++
        [.trigger b.nextTrigger, .contextCreated bv,
         .constructed (ext.construct bv h2).1,
         .emitSchema (ext.construct bv h2).1 b.schemaListeners] := by
  have hw : watchSchemaM ext none b =
      ⟨.error (.error "Watcher triggered schema change synchronously, that's a bug."),
       { hooks := b.hooks,
         watchers := List.replicate k .store ++ .callTrigger :: rest,
         unwatchers := b.unwatchers, watching := true,
         explicitSchemaListener := none, schemaListeners := b.schemaListeners,
         triggerChange := some b.nextTrigger, nextTrigger := b.nextTrigger + 1,
         generatedSchema := (ext.construct bv h2).1,
         heap := (ext.construct bv h2).2 },
       ((List.range (k + 1)).map (fun j => Event.listen (0 + j) b.nextTrigger)) ++
         [.trigger b.nextTrigger, .contextCreated bv,
          .constructed (ext.construct bv h2).1,
          .emitSchema (ext.construct bv h2).1 b.schemaListeners]⟩ := by
    simp only [watchSchemaM, hnw, if_false_eq_true]
    rw [hws, runWatchLoop_store_then_trigger,
      runTrigger_ok ext b.nextTrigger
        { hooks := b.hooks,
          watchers := List.replicate k .store ++ .callTrigger :: rest,
          unwatchers := b.unwatchers, watching := true,
          explicitSchemaListener := none, schemaListeners := b.schemaListeners,
          triggerChange := some b.nextTrigger, nextTrigger := b.nextTrigger + 1,
          generatedSchema := b.generatedSchema, heap := b.heap } bv h2 hcb]
  refine ⟨by rw [hw], by rw [hw], by rw [hw], by rw [hw], ?_, by rw [hw]; rfl,
    by rw [hw]; rfl, by rw [hw]; rfl, by rw [hw]⟩
  intro l2
  rw [hw]
  rfl

theorem watch_failure_no_rollback_witness :
    ({ initialBuilder with watchers := [.callTrigger] } : Builder).watching = false ∧
    ({ initialBuilder with watchers := [.callTrigger] } : Builder).watchers =
      List.replicate 0 .store ++ .callTrigger :: [] ∧
    createBuild extW
      ({ initialBuilder with watchers := [.callTrigger] } : Builder).hooks
      ({ initialBuilder with watchers := [.callTrigger] } : Builder).heap =
      (.ok (.vObj 0), [⟨[], true⟩, ⟨[], false⟩]) ∧
    ((watchSchemaM extW none { initialBuilder with watchers := [.callTrigger] }).res =
       .error (.error "Watcher triggered schema change synchronously, that's a bug.") ∧
     (watchSchemaM extW none
        { initialBuilder with watchers := [.callTrigger] }).b.watching = true ∧
     (watchSchemaM extW none
        { initialBuilder with watchers := [.callTrigger] }).b.explicitSchemaListener
       = none ∧
     (watchSchemaM extW none
        { initialBuilder with watchers := [.callTrigger] }).b.triggerChange =
       some ({ initialBuilder with watchers := [.callTrigger] } : Builder).nextTrigger ∧
     (∀ l2, (watchSchemaM extW l2 (watchSchemaM extW none
        { initialBuilder with watchers := [.callTrigger] }).b).res =
       .error (.error "We're already watching this schema!")) ∧
     (unwatchSchemaM (watchSchemaM extW none
        { initialBuilder with watchers := [.callTrigger] }).b).res = .ok () ∧
     (unwatchSchemaM (watchSchemaM extW none
        { initialBuilder with watchers := [.callTrigger] }).b).b.watching = false ∧
     (unwatchSchemaM (watchSchemaM extW none
        { initialBuilder with watchers := [.callTrigger] }).b).b.triggerChange = none ∧
     (watchSchemaM extW none { initialBuilder with watchers := [.callTrigger] }).tr =
       ((List.range (0 + 1)).map (fun j => Event.listen (0 + j)
         ({ initialBuilder with watchers := [.callTrigger] } : Builder).nextTrigger)) ++
         [.trigger ({ initialBuilder with watchers := [.callTrigger] } : Builder).nextTrigger,
          .contextCreated (.vObj 0),
          .constructed (extW.construct (.vObj 0) [⟨[], true⟩, ⟨[], false⟩]).1,
          .emitSchema (extW.construct (.vObj 0) [⟨[], true⟩, ⟨[], false⟩]).1
            ({ initialBuilder with watchers := [.callTrigger] } : Builder).schemaListeners]) :=
  ⟨rfl, rfl, rfl,
   watch_failure_no_rollback extW { initialBuilder with watchers := [.callTrigger] }
     0 [] (.vObj 0) [⟨[], true⟩, ⟨[], false⟩] rfl rfl rfl⟩
